import Mathlib

/-!
Shallow embedding of the body-fat calculator (src/src/main.rs).

Rust `f64` values are modelled as exact rationals (`ℚ`): every arithmetic
operation the program performs on measurements (addition, the density
polynomial, comparisons against decimal literals) is modelled exactly; the
claims under verification depend only on order and field structure of these
decimal values, never on binary rounding.  Rust `u32` ages are modelled as
`ℕ` (the program range-checks age to 1..=119, far below 2^32).
-/

/-- The seven skinfold measurements (struct `Measurements`, main.rs lines 6-15). -/
structure Measurements where
  chest : ℚ
  abdominal : ℚ
  thigh : ℚ
  triceps : ℚ
  subscapular : ℚ
  suprailiac : ℚ
  midaxillary : ℚ
deriving DecidableEq, Repr

namespace Measurements

/-- `Measurements::new` (main.rs lines 18-28): all fields start at 0.0. -/
def new : Measurements :=
  { chest := 0, abdominal := 0, thigh := 0, triceps := 0,
    subscapular := 0, suprailiac := 0, midaxillary := 0 }

/-- `Measurements::total` (main.rs lines 30-33): sum of the seven fields. -/
def total (m : Measurements) : ℚ :=
  m.chest + m.abdominal + m.thigh + m.triceps
    + m.subscapular + m.suprailiac + m.midaxillary

/-- `Measurements::set_measurement` (main.rs lines 35-46): string-keyed field
update; an unknown site name is a silent no-op. -/
def set_measurement (m : Measurements) (site : String) (value : ℚ) : Measurements :=
  match site with
  | "chest" => { m with chest := value }
  | "abdominal" => { m with abdominal := value }
  | "thigh" => { m with thigh := value }
  | "triceps" => { m with triceps := value }
  | "subscapular" => { m with subscapular := value }
  | "suprailiac" => { m with suprailiac := value }
  | "midaxillary" => { m with midaxillary := value }
  | _ => m

end Measurements

/-- Numeric value of a list of decimal digit characters, most significant first. -/
def digitsVal (l : List Char) : ℕ :=
  l.foldl (fun acc c => 10 * acc + (c.toNat - 48)) 0

/-- Exponent suffix of a Rust float literal: empty, or `e`/`E`, an optional
sign, and at least one digit.  Returns `some e` with the signed exponent. -/
def parseExpPart (cs : List Char) : Option ℤ :=
  match cs with
  | [] => some 0
  | c :: rest =>
    if c = 'e' ∨ c = 'E' then
      match rest with
      | '+' :: ds => if ds ≠ [] ∧ ds.all Char.isDigit then some (digitsVal ds) else none
      | '-' :: ds => if ds ≠ [] ∧ ds.all Char.isDigit then some (-(digitsVal ds : ℤ)) else none
      | ds => if ds ≠ [] ∧ ds.all Char.isDigit then some (digitsVal ds) else none
    else none

/-- Models Rust `str::parse::<f64>` (used at main.rs lines 128 and 151) on
finite decimal literals: an optional sign, digits with an optional point and
fraction, and an optional exponent.  The numeric value is kept as an exact
rational instead of being rounded to binary; the special forms `inf`/`NaN`
are not modelled (no claim mentions them).  Malformed text maps to `none`
exactly as Rust's parse maps it to `Err`. -/
def parseF64 (s : String) : Option ℚ :=
  let cs := s.data
  let (neg, cs1) :=
    match cs with
    | '+' :: r => (false, r)
    | '-' :: r => (true, r)
    | r => (false, r)
  let intPart := cs1.takeWhile Char.isDigit
  let rest1 := cs1.dropWhile Char.isDigit
  let (fracPart, rest2) :=
    match rest1 with
    | '.' :: r => (r.takeWhile Char.isDigit, r.dropWhile Char.isDigit)
    | r => ([], r)
  if intPart = [] ∧ fracPart = [] then none
  else if (rest1 ≠ [] ∧ rest1.head? ≠ some '.' ∧ parseExpPart rest1 = none) then none
  else
    match (match rest1 with | '.' :: _ => parseExpPart rest2 | _ => parseExpPart rest1) with
    | none => none
    | some e =>
      let mant : ℚ := (digitsVal intPart : ℚ) + (digitsVal fracPart : ℚ) / 10 ^ fracPart.length
      let scaled : ℚ := if 0 ≤ e then mant * 10 ^ e.toNat else mant / 10 ^ (-e).toNat
      some (if neg then -scaled else scaled)

/-- Models Rust `str::parse::<u32>` (main.rs line 197) on the relevant
inputs: an optional leading `+`, then at least one decimal digit, with the
value required to fit in a `u32`; anything else (empty text, a sign alone,
non-digits, negative literals) is `none`. -/
def parseU32 (s : String) : Option ℕ :=
  let cs := match s.data with
    | '+' :: r => r
    | r => r
  if cs ≠ [] ∧ cs.all Char.isDigit then
    let v := digitsVal cs
    if v < 2 ^ 32 then some v else none
  else none

/-- The `get_measurement` closure (main.rs lines 148-158): prefer the UI text
when non-empty (parse it, erroring on malformed text), otherwise fall back to
a positive stored value, otherwise report the field as required. -/
def get_measurement (ui_value : String) (stored_value : ℚ) (site : String) :
    Except String ℚ :=
  if ¬ ui_value.isEmpty then
    match parseF64 ui_value with
    | some v => Except.ok v
    | none => Except.error (site ++ " measurement must be a valid number")
  else if stored_value > 0 then Except.ok stored_value
  else Except.error (site ++ " measurement is required")

/-- Age handling in `on_calculate_body_fat` (main.rs lines 196-203): the raw
age text is parsed as a `u32` and accepted only when `age > 0 && age < 120`;
every other outcome pushes the single age error message. -/
def resolve_age (s : String) : Except String ℕ :=
  match parseU32 s with
  | some a =>
    if 0 < a ∧ a < 120 then Except.ok a
    else Except.error "Age must be a valid number between 1 and 119"
  | none => Except.error "Age must be a valid number between 1 and 119"

/-- `calculate_body_fat` (main.rs lines 49-63): sex-specific Jackson &
Pollock 7-site density regression followed by the Siri conversion. -/
def calculate_body_fat (total_measurement : ℚ) (age : ℕ) (is_male : Bool) : ℚ :=
  let body_density : ℚ :=
    if is_male then
      1.112 - 0.00043499 * total_measurement
        + 0.00000055 * total_measurement ^ 2
        - 0.00028826 * (age : ℚ)
    else
      1.097 - 0.00046971 * total_measurement
        + 0.00000056 * total_measurement ^ 2
        - 0.00012828 * (age : ℚ)
  495 / body_density - 450

/-- One sub-range row of a classification table: inclusive lower bound,
inclusive upper bound, category label. -/
abbrev RangeRow := ℚ × ℚ × String

/-- One age band of a classification table: inclusive age bounds and the
ordered sub-ranges. -/
abbrev AgeBand := ℕ × ℕ × List RangeRow

/-- Inner loop of the classifiers (main.rs lines 80-84 and 106-110):
first sub-range whose inclusive bounds contain `bf`. -/
def find_range (bf : ℚ) : List RangeRow → Option String
  | [] => none
  | (low, high, category) :: rest =>
    if bf ≥ low ∧ bf ≤ high then some category else find_range bf rest

/-- Outer loop of the classifiers (main.rs lines 78-86 and 104-112): scan the
age bands; inside a matching band scan its sub-ranges, returning on the first
hit; falling out of both loops yields no category. -/
def lookup_groups (age : ℕ) (bf : ℚ) : List AgeBand → Option String
  | [] => none
  | (lower_age, upper_age, ranges) :: rest =>
    if age ≥ lower_age ∧ age ≤ upper_age then
      match find_range bf ranges with
      | some c => some c
      | none => lookup_groups age bf rest
    else lookup_groups age bf rest

/-- The male table `age_groups` (main.rs lines 70-76), literal cut points. -/
def male_age_groups : List AgeBand :=
  [ (20, 29, [(5.0, 13.8, "Excellent"), (13.9, 17.4, "Good"), (17.5, 20.4, "Average"), (20.5, 24.1, "Below Average"), (24.2, 100.0, "Poor")]),
    (30, 39, [(5.0, 14.9, "Excellent"), (15.0, 18.9, "Good"), (19.0, 21.4, "Average"), (21.5, 25.1, "Below Average"), (25.2, 100.0, "Poor")]),
    (40, 49, [(5.0, 16.9, "Excellent"), (17.0, 19.9, "Good"), (20.0, 22.4, "Average"), (22.5, 26.1, "Below Average"), (26.2, 100.0, "Poor")]),
    (50, 59, [(5.0, 18.9, "Excellent"), (19.0, 21.9, "Good"), (22.0, 24.4, "Average"), (24.5, 28.1, "Below Average"), (28.2, 100.0, "Poor")]),
    (60, 69, [(5.0, 20.9, "Excellent"), (21.0, 23.9, "Good"), (24.0, 26.4, "Average"), (26.5, 30.1, "Below Average"), (30.2, 100.0, "Poor")]) ]

/-- The female table `age_groups` (main.rs lines 96-102), literal cut points. -/
def female_age_groups : List AgeBand :=
  [ (20, 29, [(10.0, 18.0, "Excellent"), (19.0, 23.0, "Good"), (24.0, 29.0, "Average"), (30.0, 35.0, "Below Average"), (36.0, 100.0, "Poor")]),
    (30, 39, [(11.0, 19.0, "Excellent"), (20.0, 24.0, "Good"), (25.0, 30.0, "Average"), (31.0, 36.0, "Below Average"), (37.0, 100.0, "Poor")]),
    (40, 49, [(12.0, 20.0, "Excellent"), (21.0, 25.0, "Good"), (26.0, 31.0, "Average"), (32.0, 37.0, "Below Average"), (38.0, 100.0, "Poor")]),
    (50, 59, [(13.0, 21.0, "Excellent"), (22.0, 26.0, "Good"), (27.0, 32.0, "Average"), (33.0, 38.0, "Below Average"), (39.0, 100.0, "Poor")]),
    (60, 69, [(14.0, 22.0, "Excellent"), (23.0, 27.0, "Good"), (28.0, 33.0, "Average"), (34.0, 39.0, "Below Average"), (40.0, 100.0, "Poor")]) ]

/-- `classify_body_fat_male` (main.rs lines 65-89): essential-fat floor first,
then the banded table, else "Unclassified". -/
def classify_body_fat_male (age : ℕ) (bf : ℚ) : String :=
  if bf < 5.0 then "Extremely Lean (Below Essential Fat)"
  else
    match lookup_groups age bf male_age_groups with
    | some c => c
    | none => "Unclassified"

/-- `classify_body_fat_female` (main.rs lines 91-115): essential-fat floor
first, then the banded table, else "Unclassified". -/
def classify_body_fat_female (age : ℕ) (bf : ℚ) : String :=
  if bf < 10.0 then "Extremely Lean (Below Essential Fat)"
  else
    match lookup_groups age bf female_age_groups with
    | some c => c
    | none => "Unclassified"

/-- The UI text fields read by `on_calculate_body_fat` (main.rs lines
161-214): seven raw site strings, the raw age string, and the gender string. -/
structure UIInputs where
  chest_measurement : String
  abdominal_measurement : String
  thigh_measurement : String
  triceps_measurement : String
  subscapular_measurement : String
  suprailiac_measurement : String
  midaxillary_measurement : String
  age_input : String
  selected_gender : String
deriving DecidableEq, Repr

/-- Outcome of a calculate call: either the collected validation messages
(main.rs lines 206-211) or the percentage and category shown on success
(main.rs lines 216-231). -/
inductive CalcOutcome where
  | errors (msgs : List String)
  | success (percentage : ℚ) (category : String)
deriving DecidableEq, Repr

/-- The `on_calculate_body_fat` callback (main.rs lines 136-236), paired with
the stored `Measurements` state it reads and writes: each of the seven sites
is resolved in order, then age; every failure appends its message; a
non-empty message list is reported with the stored state untouched; otherwise
the body-fat percentage is computed and classified and the resolved
measurements replace the stored ones (main.rs line 235). -/
def on_calculate_body_fat (ui : UIInputs) (stored : Measurements) :
    CalcOutcome × Measurements :=
  let current := stored
  let m0 := Measurements.new
  let e0 : List String := []
  let (m1, e1) :=
    match get_measurement ui.chest_measurement current.chest "Chest" with
    | Except.ok v => ({ m0 with chest := v }, e0)
    | Except.error e => (m0, e0 ++ [e])
  let (m2, e2) :=
    match get_measurement ui.abdominal_measurement current.abdominal "Abdominal" with
    | Except.ok v => ({ m1 with abdominal := v }, e1)
    | Except.error e => (m1, e1 ++ [e])
  let (m3, e3) :=
    match get_measurement ui.thigh_measurement current.thigh "Thigh" with
    | Except.ok v => ({ m2 with thigh := v }, e2)
    | Except.error e => (m2, e2 ++ [e])
  let (m4, e4) :=
    match get_measurement ui.triceps_measurement current.triceps "Triceps" with
    | Except.ok v => ({ m3 with triceps := v }, e3)
    | Except.error e => (m3, e3 ++ [e])
  let (m5, e5) :=
    match get_measurement ui.subscapular_measurement current.subscapular "Subscapular" with
    | Except.ok v => ({ m4 with subscapular := v }, e4)
    | Except.error e => (m4, e4 ++ [e])
  let (m6, e6) :=
    match get_measurement ui.suprailiac_measurement current.suprailiac "Suprailiac" with
    | Except.ok v => ({ m5 with suprailiac := v }, e5)
    | Except.error e => (m5, e5 ++ [e])
  let (m7, e7) :=
    match get_measurement ui.midaxillary_measurement current.midaxillary "Midaxillary" with
    | Except.ok v => ({ m6 with midaxillary := v }, e6)
    | Except.error e => (m6, e6 ++ [e])
  let (age, e8) :=
    match resolve_age ui.age_input with
    | Except.ok a => (a, e7)
    | Except.error e => (0, e7 ++ [e])
  if ¬ e8.isEmpty then (CalcOutcome.errors e8, stored)
  else
    let is_male := ui.selected_gender == "Male"
    let total_measurement := m7.total
    let body_fat_percentage := calculate_body_fat total_measurement age is_male
    let category :=
      if is_male then classify_body_fat_male age body_fat_percentage
      else classify_body_fat_female age body_fat_percentage
    (CalcOutcome.success body_fat_percentage category, m7)

/-- The eight resolutions of a calculate call, in source order. -/
def siteResults (ui : UIInputs) (stored : Measurements) : List (Except String ℚ) :=
  [ get_measurement ui.chest_measurement stored.chest "Chest",
    get_measurement ui.abdominal_measurement stored.abdominal "Abdominal",
    get_measurement ui.thigh_measurement stored.thigh "Thigh",
    get_measurement ui.triceps_measurement stored.triceps "Triceps",
    get_measurement ui.subscapular_measurement stored.subscapular "Subscapular",
    get_measurement ui.suprailiac_measurement stored.suprailiac "Suprailiac",
    get_measurement ui.midaxillary_measurement stored.midaxillary "Midaxillary" ]

/-- The ordered list of validation messages a calculate call produces: the
error of each failing resolution, seven sites first, age last. -/
def errList (ui : UIInputs) (stored : Measurements) : List String :=
  (siteResults ui stored ++ [(resolve_age ui.age_input).map fun _ => (0 : ℚ)]).filterMap
    fun r => match r with
      | Except.ok _ => none
      | Except.error e => some e

/-- The measurements a fully successful calculate call merges back: each
field the value its resolution produced (0 in the impossible error case, the
`Measurements::new` default). -/
def okMerge (ui : UIInputs) (stored : Measurements) : Measurements :=
  { chest := (get_measurement ui.chest_measurement stored.chest "Chest").toOption.getD 0,
    abdominal := (get_measurement ui.abdominal_measurement stored.abdominal "Abdominal").toOption.getD 0,
    thigh := (get_measurement ui.thigh_measurement stored.thigh "Thigh").toOption.getD 0,
    triceps := (get_measurement ui.triceps_measurement stored.triceps "Triceps").toOption.getD 0,
    subscapular := (get_measurement ui.subscapular_measurement stored.subscapular "Subscapular").toOption.getD 0,
    suprailiac := (get_measurement ui.suprailiac_measurement stored.suprailiac "Suprailiac").toOption.getD 0,
    midaxillary := (get_measurement ui.midaxillary_measurement stored.midaxillary "Midaxillary").toOption.getD 0 }

/-- The age a calculate call works with: the resolved age, or 0 after an age
error (main.rs line 201). -/
def okAge (ui : UIInputs) : ℕ :=
  (resolve_age ui.age_input).toOption.getD 0

/-- A list of results has no collected error exactly when every result is ok. -/
lemma filterMap_err_nil (l : List (Except String ℚ)) :
    (l.filterMap fun r => match r with
      | Except.ok _ => none
      | Except.error e => some e) = [] ↔ l.all Except.isOk := by
  induction l with
  | nil => simp
  | cons r rest ih => cases r <;> simp [Except.isOk, Except.toBool, ih]

set_option maxHeartbeats 4000000 in
/-- A calculate call either reports the ordered collected message list and
returns the stored state untouched, or reports the computed percentage and
category and returns the merged resolved measurements. -/
lemma on_calc_eq (ui : UIInputs) (stored : Measurements) :
    on_calculate_body_fat ui stored =
      if (errList ui stored).isEmpty then
        (CalcOutcome.success
           (calculate_body_fat (okMerge ui stored).total (okAge ui)
             (ui.selected_gender == "Male"))
           (if ui.selected_gender == "Male" then
              classify_body_fat_male (okAge ui)
                (calculate_body_fat (okMerge ui stored).total (okAge ui)
                  (ui.selected_gender == "Male"))
            else
              classify_body_fat_female (okAge ui)
                (calculate_body_fat (okMerge ui stored).total (okAge ui)
                  (ui.selected_gender == "Male"))),
         okMerge ui stored)
      else (CalcOutcome.errors (errList ui stored), stored) := by
  cases h1 : get_measurement ui.chest_measurement stored.chest "Chest" <;>
  cases h2 : get_measurement ui.abdominal_measurement stored.abdominal "Abdominal" <;>
  cases h3 : get_measurement ui.thigh_measurement stored.thigh "Thigh" <;>
  cases h4 : get_measurement ui.triceps_measurement stored.triceps "Triceps" <;>
  cases h5 : get_measurement ui.subscapular_measurement stored.subscapular "Subscapular" <;>
  cases h6 : get_measurement ui.suprailiac_measurement stored.suprailiac "Suprailiac" <;>
  cases h7 : get_measurement ui.midaxillary_measurement stored.midaxillary "Midaxillary" <;>
  cases h8 : resolve_age ui.age_input <;>
  simp only [on_calculate_body_fat, errList, okMerge, okAge, siteResults,
    h1, h2, h3, h4, h5, h6, h7, h8] <;>
  rfl

/-- The collected message list is empty exactly when all eight resolutions
succeed. -/
lemma errList_nil_iff (ui : UIInputs) (stored : Measurements) :
    errList ui stored = [] ↔
      ((siteResults ui stored).all Except.isOk ∧ (resolve_age ui.age_input).isOk) := by
  rw [errList, filterMap_err_nil, List.all_append]
  cases resolve_age ui.age_input <;>
    simp [Except.isOk, Except.toBool, Except.map]

/-- Any category the inner range loop returns is the label of one of its rows. -/
lemma find_range_mem {bf : ℚ} {rs : List RangeRow} {c : String}
    (h : find_range bf rs = some c) : c ∈ rs.map fun r => r.2.2 := by
  induction rs with
  | nil => simp [find_range] at h
  | cons r rest ih =>
    obtain ⟨low, high, cat⟩ := r
    rw [find_range] at h
    by_cases hb : bf ≥ low ∧ bf ≤ high
    · rw [if_pos hb] at h
      simp at h
      simp [h]
    · rw [if_neg hb] at h
      simp [ih h]

/-- Any category the banded lookup returns is a label of one of its rows. -/
lemma lookup_groups_mem {age : ℕ} {bf : ℚ} {groups : List AgeBand} {c : String}
    (h : lookup_groups age bf groups = some c) :
    c ∈ groups.flatMap fun g => g.2.2.map fun r => r.2.2 := by
  induction groups with
  | nil => simp [lookup_groups] at h
  | cons g rest ih =>
    obtain ⟨lo, hi, rs⟩ := g
    rw [lookup_groups] at h
    rw [List.flatMap_cons]
    by_cases hb : age ≥ lo ∧ age ≤ hi
    · rw [if_pos hb] at h
      cases hf : find_range bf rs with
      | none =>
        simp only [hf] at h
        exact List.mem_append_right _ (ih h)
      | some c2 =>
        simp only [hf] at h
        injection h with h
        subst h
        exact List.mem_append_left _ (find_range_mem hf)
    · rw [if_neg hb] at h
      exact List.mem_append_right _ (ih h)

/-- When the age matches no band of the table, the banded lookup fails. -/
lemma lookup_groups_none_of_age {age : ℕ} {bf : ℚ} {groups : List AgeBand}
    (h : ∀ g ∈ groups, ¬ (g.1 ≤ age ∧ age ≤ g.2.1)) :
    lookup_groups age bf groups = none := by
  induction groups with
  | nil => rfl
  | cons g rest ih =>
    obtain ⟨lo, hi, rs⟩ := g
    rw [lookup_groups, if_neg (h (lo, hi, rs) (by simp))]
    exact ih fun g hg => h g (by simp [hg])

/-- A percentage above every row's upper bound matches no row. -/
lemma find_range_none_of_gt {bf : ℚ} {rs : List RangeRow}
    (h : ∀ r ∈ rs, r.2.1 < bf) : find_range bf rs = none := by
  induction rs with
  | nil => rfl
  | cons r rest ih =>
    obtain ⟨low, high, cat⟩ := r
    have hr : high < bf := h (low, high, cat) (by simp)
    rw [find_range, if_neg (by push_neg; intro; linarith)]
    exact ih fun r hrr => h r (by simp [hrr])

/-- A percentage above every upper bound of every band matches nothing. -/
lemma lookup_groups_none_of_gt {age : ℕ} {bf : ℚ} {groups : List AgeBand}
    (h : ∀ g ∈ groups, ∀ r ∈ g.2.2, r.2.1 < bf) :
    lookup_groups age bf groups = none := by
  induction groups with
  | nil => rfl
  | cons g rest ih =>
    obtain ⟨lo, hi, rs⟩ := g
    have hrest : lookup_groups age bf rest = none :=
      ih fun g hg => h g (by simp [hg])
    rw [lookup_groups]
    by_cases hb : age ≥ lo ∧ age ≤ hi
    · rw [if_pos hb, find_range_none_of_gt fun r hr => h (lo, hi, rs) (by simp) r hr]
      exact hrest
    · rw [if_neg hb]
      exact hrest

/-- C8: for every assignment of the seven skinfold fields, `total` equals the
sum of all seven fields, computed unconditionally at call time. -/
theorem total_is_sum_of_seven (m : Measurements) :
    m.total = m.chest + m.abdominal + m.thigh + m.triceps
      + m.subscapular + m.suprailiac + m.midaxillary := rfl

/-- C7: for every total, age and sex, `calculate_body_fat` is the Siri
conversion `495 / density - 450` over the sex-specific Jackson & Pollock
density, with no clamping or range rejection of the result. -/
theorem calculate_body_fat_siri_formula (total_measurement : ℚ) (age : ℕ) :
    calculate_body_fat total_measurement age true =
      495 / (1.112 - 0.00043499 * total_measurement
        + 0.00000055 * total_measurement ^ 2
        - 0.00028826 * (age : ℚ)) - 450 ∧
    calculate_body_fat total_measurement age false =
      495 / (1.097 - 0.00046971 * total_measurement
        + 0.00000056 * total_measurement ^ 2
        - 0.00012828 * (age : ℚ)) - 450 :=
  ⟨rfl, rfl⟩

/-- C9: `set_measurement` overwrites exactly the field named by `site`,
leaving the other six fields unchanged, and is a silent no-op for a site
string matching none of the seven field names. -/
theorem set_measurement_frame (m : Measurements) (value : ℚ) (site : String) :
    (site = "chest" → m.set_measurement site value = { m with chest := value }) ∧
    (site = "abdominal" → m.set_measurement site value = { m with abdominal := value }) ∧
    (site = "thigh" → m.set_measurement site value = { m with thigh := value }) ∧
    (site = "triceps" → m.set_measurement site value = { m with triceps := value }) ∧
    (site = "subscapular" → m.set_measurement site value = { m with subscapular := value }) ∧
    (site = "suprailiac" → m.set_measurement site value = { m with suprailiac := value }) ∧
    (site = "midaxillary" → m.set_measurement site value = { m with midaxillary := value }) ∧
    (site ∉ (["chest", "abdominal", "thigh", "triceps", "subscapular",
        "suprailiac", "midaxillary"] : List String) →
      m.set_measurement site value = m) := by
  refine ⟨?_, ?_, ?_, ?_, ?_, ?_, ?_, ?_⟩ <;> intro h
  · subst h; rfl
  · subst h; rfl
  · subst h; rfl
  · subst h; rfl
  · subst h; rfl
  · subst h; rfl
  · subst h; rfl
  · unfold Measurements.set_measurement
    split <;> simp_all

/-- C9 witness: at concrete inputs, updating `chest` rewrites that field and
an unknown site name leaves the record unchanged. -/
theorem set_measurement_frame_witness :
    Measurements.set_measurement ⟨1, 2, 3, 4, 5, 6, 7⟩ "chest" 9 = ⟨9, 2, 3, 4, 5, 6, 7⟩ ∧
    Measurements.set_measurement ⟨1, 2, 3, 4, 5, 6, 7⟩ "waist" 9 = ⟨1, 2, 3, 4, 5, 6, 7⟩ :=
  ⟨(set_measurement_frame ⟨1, 2, 3, 4, 5, 6, 7⟩ 9 "chest").1 rfl,
   (set_measurement_frame ⟨1, 2, 3, 4, 5, 6, 7⟩ 9 "waist").2.2.2.2.2.2.2 (by decide)⟩

/-- C3: percentages 4.99 (male) and 9.99 (female) classify as
"Extremely Lean (Below Essential Fat)" at every age, while 5.0 (male) and
10.0 (female) never produce that category. -/
theorem essential_fat_boundary (age : ℕ) :
    classify_body_fat_male age 4.99 = "Extremely Lean (Below Essential Fat)" ∧
    classify_body_fat_female age 9.99 = "Extremely Lean (Below Essential Fat)" ∧
    classify_body_fat_male age 5.0 ≠ "Extremely Lean (Below Essential Fat)" ∧
    classify_body_fat_female age 10.0 ≠ "Extremely Lean (Below Essential Fat)" := by
  refine ⟨?_, ?_, ?_, ?_⟩
  · simp [classify_body_fat_male, if_pos (by norm_num : (4.99 : ℚ) < 5.0)]
  · simp [classify_body_fat_female, if_pos (by norm_num : (9.99 : ℚ) < 10.0)]
  · simp only [classify_body_fat_male, if_neg (by norm_num : ¬ (5.0 : ℚ) < 5.0)]
    cases hc : lookup_groups age 5.0 male_age_groups with
    | none => simp
    | some c =>
      simp only []
      rintro rfl
      have hm := lookup_groups_mem hc
      simp [male_age_groups] at hm
  · simp only [classify_body_fat_female, if_neg (by norm_num : ¬ (10.0 : ℚ) < 10.0)]
    cases hc : lookup_groups age 10.0 female_age_groups with
    | none => simp
    | some c =>
      simp only []
      rintro rfl
      have hm := lookup_groups_mem hc
      simp [female_age_groups] at hm

/-- C1 counterexample: age 15 is outside every decade band, yet a male
percentage of 3 classifies as "Extremely Lean (Below Essential Fat)", not
"Unclassified" — the essential-fat floor short-circuits the band lookup. -/
theorem out_of_band_below_floor_not_unclassified :
    classify_body_fat_male 15 3 = "Extremely Lean (Below Essential Fat)" ∧
    classify_body_fat_male 15 3 ≠ "Unclassified" := by
  have h : classify_body_fat_male 15 3 = "Extremely Lean (Below Essential Fat)" := by
    simp [classify_body_fat_male, if_pos (by norm_num : (3 : ℚ) < 5.0)]
  exact ⟨h, by rw [h]; decide⟩

/-- C1 (amended): for every age outside all five decade bands and every
percentage at or above the sex-specific essential-fat floor, the classifier
returns "Unclassified". -/
theorem out_of_band_unclassified (age : ℕ) (bf : ℚ) (hage : age < 20 ∨ 69 < age) :
    (5.0 ≤ bf → classify_body_fat_male age bf = "Unclassified") ∧
    (10.0 ≤ bf → classify_body_fat_female age bf = "Unclassified") := by
  constructor <;> intro hbf
  · have hnone : lookup_groups age bf male_age_groups = none := by
      apply lookup_groups_none_of_age
      intro g hg
      simp [male_age_groups] at hg
      rcases hg with rfl | rfl | rfl | rfl | rfl <;> simp <;> omega
    simp [classify_body_fat_male, if_neg (not_lt.mpr hbf), hnone]
  · have hnone : lookup_groups age bf female_age_groups = none := by
      apply lookup_groups_none_of_age
      intro g hg
      simp [female_age_groups] at hg
      rcases hg with rfl | rfl | rfl | rfl | rfl <;> simp <;> omega
    simp [classify_body_fat_female, if_neg (not_lt.mpr hbf), hnone]

/-- C1 witness: age 75 with percentage 30 is "Unclassified" for both sexes. -/
theorem out_of_band_unclassified_witness :
    classify_body_fat_male 75 30 = "Unclassified" ∧
    classify_body_fat_female 75 30 = "Unclassified" :=
  ⟨(out_of_band_unclassified 75 30 (Or.inr (by norm_num))).1 (by norm_num),
   (out_of_band_unclassified 75 30 (Or.inr (by norm_num))).2 (by norm_num)⟩

/-- C10: inside every decade band, a percentage strictly above 100 falls past
every sub-range (each "Poor" row tops out at an inclusive 100.0), so both
classifiers return "Unclassified". -/
theorem above_hundred_unclassified (age : ℕ) (bf : ℚ)
    (h1 : 20 ≤ age) (h2 : age ≤ 69) (h3 : 100.0 < bf) :
    classify_body_fat_male age bf = "Unclassified" ∧
    classify_body_fat_female age bf = "Unclassified" := by
  have hm : lookup_groups age bf male_age_groups = none := by
    apply lookup_groups_none_of_gt
    intro g hg r hr
    simp [male_age_groups] at hg
    rcases hg with rfl | rfl | rfl | rfl | rfl <;>
      (simp at hr; rcases hr with rfl | rfl | rfl | rfl | rfl <;> (simp; linarith))
  have hf : lookup_groups age bf female_age_groups = none := by
    apply lookup_groups_none_of_gt
    intro g hg r hr
    simp [female_age_groups] at hg
    rcases hg with rfl | rfl | rfl | rfl | rfl <;>
      (simp at hr; rcases hr with rfl | rfl | rfl | rfl | rfl <;> (simp; linarith))
  constructor
  · simp [classify_body_fat_male, if_neg (by linarith : ¬ bf < 5.0), hm]
  · simp [classify_body_fat_female, if_neg (by linarith : ¬ bf < 10.0), hf]

/-- C10 witness: at age 25 a percentage of 101 is "Unclassified" for both
sexes. -/
theorem above_hundred_unclassified_witness :
    classify_body_fat_male 25 101 = "Unclassified" ∧
    classify_body_fat_female 25 101 = "Unclassified" :=
  above_hundred_unclassified 25 101 (by norm_num) (by norm_num) (by norm_num)

/-- C5: `get_measurement` implements exactly the three-case policy: non-empty
raw text is parsed (a parse failure yields the "must be a valid number"
error); otherwise a positive stored value is returned; otherwise the
"is required" error is returned. -/
theorem get_measurement_policy (ui_value site : String) (stored_value : ℚ) :
    (ui_value.isEmpty = false →
      get_measurement ui_value stored_value site =
        match parseF64 ui_value with
        | some v => Except.ok v
        | none => Except.error (site ++ " measurement must be a valid number")) ∧
    (ui_value.isEmpty = true → 0 < stored_value →
      get_measurement ui_value stored_value site = Except.ok stored_value) ∧
    (ui_value.isEmpty = true → ¬ 0 < stored_value →
      get_measurement ui_value stored_value site =
        Except.error (site ++ " measurement is required")) := by
  refine ⟨?_, ?_, ?_⟩
  · intro h
    simp [get_measurement, h]
  · intro h h2
    simp [get_measurement, h, h2]
  · intro h h2
    simp [get_measurement, h, h2]

/-- C5 witness: empty raw text with stored value 12.5 resolves to 12.5;
empty raw text with stored value 0 reports the field as required; raw text
"abc" reports a parse error. -/
theorem get_measurement_policy_witness :
    get_measurement "" 12.5 "Chest" = Except.ok 12.5 ∧
    get_measurement "" 0 "Chest" = Except.error "Chest measurement is required" ∧
    get_measurement "abc" 5 "Chest" =
      Except.error "Chest measurement must be a valid number" :=
  ⟨(get_measurement_policy "" "Chest" 12.5).2.1 rfl (by norm_num),
   (get_measurement_policy "" "Chest" 0).2.2 rfl (by norm_num),
   by rw [(get_measurement_policy "abc" "Chest" 5).1 rfl]; rfl⟩

/-- C2 (amended): age resolution uses only the raw age text — there is no
stored-value fallback: the text is parsed as an unsigned integer, required to
satisfy `1 ≤ age ≤ 119`, and every violation (including empty text, hence
regardless of any stored measurements) yields exactly the error
"Age must be a valid number between 1 and 119". -/
theorem age_resolution_no_stored_fallback :
    (∀ s : String, ∀ n : ℕ,
       resolve_age s = Except.ok n ↔ parseU32 s = some n ∧ 1 ≤ n ∧ n ≤ 119) ∧
    (∀ s : String,
       (∀ n : ℕ, ¬ (parseU32 s = some n ∧ 1 ≤ n ∧ n ≤ 119)) →
       resolve_age s = Except.error "Age must be a valid number between 1 and 119") ∧
    (∀ ui : UIInputs, ∀ stored : Measurements, ui.age_input = "" →
       ∃ msgs, (on_calculate_body_fat ui stored).1 = CalcOutcome.errors msgs ∧
         "Age must be a valid number between 1 and 119" ∈ msgs) := by
  refine ⟨?_, ?_, ?_⟩
  · intro s n
    cases hp : parseU32 s with
    | none => simp [resolve_age, hp]
    | some a =>
      by_cases hb : 0 < a ∧ a < 120
      · simp only [resolve_age, hp, if_pos hb]
        constructor
        · intro h
          injection h with h
          subst h
          exact ⟨rfl, by omega⟩
        · rintro ⟨h1, h2, h3⟩
          injection h1 with h1
          subst h1
          rfl
      · simp only [resolve_age, hp, if_neg hb]
        constructor
        · intro h
          exact absurd h (by simp)
        · rintro ⟨h1, h2, h3⟩
          injection h1 with h1
          omega
  · intro s h
    cases hp : parseU32 s with
    | none => simp [resolve_age, hp]
    | some a =>
      have ha := h a
      simp [hp] at ha
      simp only [resolve_age, hp, if_neg (by omega : ¬ (0 < a ∧ a < 120))]
  · intro ui stored hempty
    have hage : resolve_age ui.age_input =
        Except.error "Age must be a valid number between 1 and 119" := by
      rw [hempty]
      rfl
    have hmem : "Age must be a valid number between 1 and 119" ∈ errList ui stored := by
      rw [errList]
      apply List.mem_filterMap.mpr
      refine ⟨Except.error "Age must be a valid number between 1 and 119", ?_, rfl⟩
      apply List.mem_append_right
      simp [hage, Except.map]
    cases hE : (errList ui stored).isEmpty with
    | true =>
      rw [List.isEmpty_iff.mp hE] at hmem
      exact absurd hmem (List.not_mem_nil _)
    | false =>
      exact ⟨errList ui stored, by rw [on_calc_eq, hE]; rfl, hmem⟩

/-- C2 witness: with every measurement resolvable from stored state but an
empty raw age text, the call reports the age error. -/
theorem age_resolution_no_stored_fallback_witness :
    ∃ msgs,
      (on_calculate_body_fat ⟨"", "", "", "", "", "", "", "", "Male"⟩
          ⟨10, 10, 10, 10, 10, 10, 10⟩).1 = CalcOutcome.errors msgs ∧
        "Age must be a valid number between 1 and 119" ∈ msgs :=
  age_resolution_no_stored_fallback.2.2
    ⟨"", "", "", "", "", "", "", "", "Male"⟩ ⟨10, 10, 10, 10, 10, 10, 10⟩ rfl

/-- C2 counterexample: every site resolves from a stored value of 10, the raw
age text is empty, yet the call errors with the age message instead of
resolving age from any previously stored value — there is no stored age at
all, so the claimed two-stage fallback for age does not exist. -/
theorem empty_age_with_stored_values_errors :
    on_calculate_body_fat ⟨"", "", "", "", "", "", "", "", "Male"⟩
        ⟨10, 10, 10, 10, 10, 10, 10⟩
      = (CalcOutcome.errors ["Age must be a valid number between 1 and 119"],
         ⟨10, 10, 10, 10, 10, 10, 10⟩) := rfl

/-- C4: a calculate call is atomic: whenever the outcome is a validation
error report the stored measurements are returned unchanged, and whenever it
succeeds all eight resolutions succeeded and the merged resolved values
replace the stored ones. -/
theorem calculate_atomic (ui : UIInputs) (stored : Measurements) :
    (∀ msgs, (on_calculate_body_fat ui stored).1 = CalcOutcome.errors msgs →
       (on_calculate_body_fat ui stored).2 = stored) ∧
    (∀ p c, (on_calculate_body_fat ui stored).1 = CalcOutcome.success p c →
       (siteResults ui stored).all Except.isOk ∧
       (resolve_age ui.age_input).isOk ∧
       (on_calculate_body_fat ui stored).2 = okMerge ui stored) := by
  rw [on_calc_eq]
  cases hE : (errList ui stored).isEmpty with
  | true =>
    have hok := (errList_nil_iff ui stored).mp (List.isEmpty_iff.mp hE)
    constructor
    · intro msgs h
      simp at h
    · intro p c h
      exact ⟨hok.1, hok.2, rfl⟩
  | false =>
    constructor
    · intro msgs h
      rfl
    · intro p c h
      simp at h

/-- C4 witness: a call with one malformed site leaves the stored
measurements unchanged. -/
theorem calculate_atomic_witness :
    (on_calculate_body_fat ⟨"abc", "10", "10", "10", "10", "10", "10", "30", "Male"⟩
        ⟨1, 2, 3, 4, 5, 6, 7⟩).2 = ⟨1, 2, 3, 4, 5, 6, 7⟩ :=
  (calculate_atomic ⟨"abc", "10", "10", "10", "10", "10", "10", "30", "Male"⟩
      ⟨1, 2, 3, 4, 5, 6, 7⟩).1
    ["Chest measurement must be a valid number"] rfl

/-- C6: validation errors never short-circuit: every error outcome is exactly
the ordered list collecting the error of each failing resolution (seven sites
first, then age); in particular chest="abc" with age="200" yields exactly
those two messages. -/
theorem errors_collected (ui : UIInputs) (stored : Measurements) :
    (∀ msgs, (on_calculate_body_fat ui stored).1 = CalcOutcome.errors msgs →
       msgs = errList ui stored) ∧
    (on_calculate_body_fat ⟨"abc", "10", "10", "10", "10", "10", "10", "200", "Male"⟩
        ⟨0, 0, 0, 0, 0, 0, 0⟩).1 =
      CalcOutcome.errors
        ["Chest measurement must be a valid number",
         "Age must be a valid number between 1 and 119"] := by
  constructor
  · intro msgs h
    rw [on_calc_eq] at h
    cases hE : (errList ui stored).isEmpty with
    | true =>
      rw [hE] at h
      simp at h
    | false =>
      rw [hE] at h
      simp at h
      exact h.symm
  · rfl

/-- C6 witness: the two messages of the malformed call are exactly the
collected error list of that call. -/
theorem errors_collected_witness :
    ["Chest measurement must be a valid number",
     "Age must be a valid number between 1 and 119"] =
      errList ⟨"abc", "10", "10", "10", "10", "10", "10", "200", "Male"⟩
        ⟨0, 0, 0, 0, 0, 0, 0⟩ :=
  (errors_collected ⟨"abc", "10", "10", "10", "10", "10", "10", "200", "Male"⟩
      ⟨0, 0, 0, 0, 0, 0, 0⟩).1 _
    (errors_collected ⟨"abc", "10", "10", "10", "10", "10", "10", "200", "Male"⟩
      ⟨0, 0, 0, 0, 0, 0, 0⟩).2
